import Mathlib

/-!
Verification development for the Kriptunukas crypto trading bot.

This file gives a shallow embedding of the risk-gating and trade-lifecycle
core of the repository (src/trading/risk.py, src/main.py, src/db/database.py,
src/trading/executor.py, src/data/collector.py) and proves or refutes the
frozen specification claims about it.

Modelling conventions:
* Python floats/ints are modelled as rationals (`ℚ`).
* A Python dict field accessed with `d.get(key)` / `d.get(key, default)` is
  modelled as an `Option` field; `none` models an absent key
  (`d.get(k, v) = x.getD v`).
* Python truthiness of a numeric optional field (`if not x`) is modelled by
  `truthyQ` (`none` and `some 0` are falsy).
* A Python exception escaping a computation is modelled by `Option`/`Except`
  (`none` / `.error` = the call raised).
* Timestamps handed to `datetime.fromisoformat` are modelled by `Timestamp`:
  `naive t` is a parsed timezone-naive value (`t` in hours), `aware t` is a
  parsed timezone-aware value (a UTC/'Z'-suffixed string), `invalid` is an
  unparsable string.  Subtracting an aware datetime from the naive
  `datetime.now()` raises `TypeError` in Python; subtraction is therefore
  partial in the model (`Timestamp.sub_from_naive_now`).
-/

namespace Kriptunukas

/-- Parsed form of a trade timestamp (see header comment). -/
inductive Timestamp where
  | naive (t : ℚ)
  | aware (t : ℚ)
  | invalid
deriving DecidableEq, Repr

/-- Models `datetime.now() - parsed`: defined only when `parsed` is naive, since
Python raises `TypeError` on naive-minus-aware, and parsing `invalid` raised
before the subtraction.  The result is the elapsed time in hours. -/
def Timestamp.sub_from_naive_now (now : ℚ) : Timestamp → Option ℚ
  | .naive t => some (now - t)
  | .aware _ => none
  | .invalid => none

/-- Truthiness of an optional numeric Python value: `None` and `0` are falsy. -/
def truthyQ : Option ℚ → Bool
  | none => false
  | some v => v != 0

/-- A trade record as consumed by `RiskManager` (a dict; `none` = absent key).
`risk.py` only reads the keys `status`, `pnl`, `unrealized_pnl`, `opened_at`. -/
structure TradeRec where
  status : Option String := none
  pnl : Option ℚ := none
  unrealized_pnl : Option ℚ := none
  opened_at : Option Timestamp := none
deriving DecidableEq, Repr

/-- An AI signal dict as consumed by `RiskManager` (`none` = absent key). -/
structure Signal where
  symbol : String := ""
  action : Option String := none
  confidence : Option ℚ := none
  entry_price : Option ℚ := none
  stop_loss : Option ℚ := none
  take_profit : Option ℚ := none
  position_size_pct : Option ℚ := none
deriving DecidableEq, Repr

/-- Configuration read by `RiskManager.__init__` / `validate_signal`, with the
source defaults.  `min_rr` embeds the source key `min_reward_risk_ratio`. -/
structure RiskConfig where
  max_risk_per_trade : ℚ := 2/100
  max_daily_drawdown : ℚ := 5/100
  max_open_positions : ℕ := 3
  cooldown_hours : ℚ := 2
  min_rr : ℚ := 2
  min_confidence : ℚ := 70
deriving DecidableEq, Repr

/-- Tests `signal.get('action') in ['BUY', 'SELL']`. -/
def isBuySell (action : Option String) : Bool :=
  action == some "BUY" || action == some "SELL"

/-- Embeds `RiskManager.is_in_cooldown` (src/trading/risk.py lines 212-253).
`now` is the naive `datetime.now()` clock in hours.  Any exception inside the
`try` block (unparsable string, or naive-minus-aware `TypeError`) is caught
and yields `False`. -/
def is_in_cooldown (cooldown_hours : ℚ) (now : ℚ) (last_trade : Option TradeRec) : Bool :=
  match last_trade with
  | none => false
  | some t =>
    match t.opened_at with
    | none => false
    | some ts =>
      match Timestamp.sub_from_naive_now now ts with
      | none => false
      | some elapsed => decide (elapsed < cooldown_hours)

/-- Embeds `RiskManager.calculate_daily_pnl` (src/trading/risk.py lines
174-210): realized PnL of today's CLOSED trades plus the `unrealized_pnl`
entries of the open trades.  `trade.get('pnl', 0) or 0` collapses both an
absent key and `None` to `0`, which is `Option.getD 0` here. -/
def calculate_daily_pnl (trades_today open_trades : List TradeRec) : ℚ :=
  List.foldl (fun s t => s + t.pnl.getD 0) 0
      (trades_today.filter (fun t => t.status == some "CLOSED"))
    + List.foldl (fun s t => s + t.unrealized_pnl.getD 0) 0 open_trades

/-- Embeds `RiskManager.validate_signal` (src/trading/risk.py lines 34-123):
the ordered rule chain.  The returned string is a fixed tag for the rule that
fired (the source interpolates values into its messages; only the rule
identity matters here). -/
def validate_signal (cfg : RiskConfig) (now : ℚ) (signal : Signal)
    (portfolio_balance : ℚ) (open_trades trades_today : List TradeRec)
    (last_trade : Option TradeRec) : Bool × String :=
  let confidence := signal.confidence.getD 0
  -- Rule 1: confidence threshold
  if confidence < cfg.min_confidence then
    (false, "Confidence below threshold")
  -- Rule 2: HOLD needs no validation
  else if signal.action == some "HOLD" then
    (true, "HOLD action requires no validation")
  -- Rule 3: max open positions (BUY/SELL only)
  else if isBuySell signal.action && decide (open_trades.length ≥ cfg.max_open_positions) then
    (false, "Max open positions reached")
  -- Rule 4: daily drawdown limit (applies to every action reaching here)
  else if calculate_daily_pnl trades_today open_trades
      < -(portfolio_balance * cfg.max_daily_drawdown) then
    (false, "Daily drawdown limit reached")
  -- Rule 5: cooldown (BUY/SELL with a prior trade only)
  else if last_trade.isSome && isBuySell signal.action
      && is_in_cooldown cfg.cooldown_hours now last_trade then
    (false, "Symbol in cooldown period")
  -- Rules 6 and 7 (BUY/SELL only)
  else if isBuySell signal.action then
    if truthyQ signal.entry_price && truthyQ signal.stop_loss
        && truthyQ signal.take_profit then
      let entry := signal.entry_price.getD 0
      let stop_loss := signal.stop_loss.getD 0
      let take_profit := signal.take_profit.getD 0
      let risk := |entry - stop_loss|
      let reward := |take_profit - entry|
      if risk > 0 then
        if reward / risk < cfg.min_rr then
          (false, "Reward-Risk ratio below minimum")
        else
          -- Rule 7: position size percentage in [1, 5]
          let pct := signal.position_size_pct
          if !truthyQ pct || pct.getD 0 < 1 || pct.getD 0 > 5 then
            (false, "Invalid position size")
          else
            (true, "Signal validated successfully")
      else
        (false, "Invalid stop-loss (same as entry price)")
    else
      (false, "Missing entry_price, stop_loss, or take_profit")
  else
    (true, "Signal validated successfully")

/-- Embeds `RiskManager.calculate_position_size` (src/trading/risk.py lines
125-172).  `none` models the `ZeroDivisionError` raised by
`max_position_value / entry_price` when the effective entry price is zero;
that is the only division reachable with a zero divisor (the stop-loss guard
makes `risk_per_unit` nonzero). -/
def calculate_position_size (cfg : RiskConfig) (signal : Signal)
    (portfolio_balance current_price : ℚ) : Option ℚ :=
  let entry_price := signal.entry_price.getD current_price
  if !truthyQ signal.stop_loss || signal.stop_loss.getD 0 == entry_price then
    some 0
  else
    let stop_loss := signal.stop_loss.getD 0
    let risk_amount := portfolio_balance * cfg.max_risk_per_trade
    let risk_per_unit := |entry_price - stop_loss|
    let position_size := risk_amount / risk_per_unit
    let pct := signal.position_size_pct.getD 2 / 100
    let max_position_value := portfolio_balance * pct
    if entry_price == 0 then
      none
    else
      some (min position_size (max_position_value / entry_price))

/-- Embeds `RiskManager.check_emergency_stop` (src/trading/risk.py lines
269-296). -/
def check_emergency_stop (portfolio_balance initial_balance : ℚ) : Bool :=
  decide ((initial_balance - portfolio_balance) / initial_balance ≥ 10/100)

/-! ## Database layer (src/db/database.py) -/

/-- A row of the `trades` table (schema: `Database._create_tables`,
src/db/database.py lines 73-92).  `quantity` and `entry_price` are NOT NULL
columns, so they are plain rationals; nullable columns are `Option`.
Timestamps are rationals (hours).  `dict(row)` hands every column to the
callers, so the `.get(key, default)` defaults in `main.py` never fire for
these keys. -/
structure TradeRow where
  id : ℕ
  signal_id : Option ℕ := none
  symbol : String := ""
  side : String := "BUY"
  quantity : ℚ := 0
  entry_price : ℚ := 0
  exit_price : Option ℚ := none
  stop_loss : Option ℚ := none
  take_profit : Option ℚ := none
  status : String := "OPEN"
  pnl : Option ℚ := none
  pnl_percent : Option ℚ := none
  exchange_order_id : Option String := none
  opened_at : ℚ := 0
  closed_at : Option ℚ := none
deriving DecidableEq, Repr

/-- The column names of the `trades` table, from the `CREATE TABLE trades`
statement (src/db/database.py lines 73-92).  Note: there is no
`unrealized_pnl` column. -/
def tradesColumns : List String :=
  ["id", "signal_id", "symbol", "side", "quantity", "entry_price",
   "exit_price", "stop_loss", "take_profit", "status", "pnl", "pnl_percent",
   "exchange_order_id", "opened_at", "closed_at"]

/-- The update dicts passed to `Database.update_trade` by `main.py`: the
union of the keys used at its three call sites (`exit_price`, `pnl`,
`pnl_percent`, `status` in the two close paths; `unrealized_pnl` in the
monitor's open branch).  A `some` field is a key present in the dict. -/
structure TradeUpdates where
  exit_price : Option ℚ := none
  pnl : Option ℚ := none
  pnl_percent : Option ℚ := none
  status : Option String := none
  unrealized_pnl : Option ℚ := none
deriving DecidableEq, Repr

/-- The keys of the update dict (the column names the generated
`UPDATE trades SET ...` statement mentions). -/
def TradeUpdates.keys (u : TradeUpdates) : List String :=
  (if u.exit_price.isSome then ["exit_price"] else [])
    ++ (if u.pnl.isSome then ["pnl"] else [])
    ++ (if u.pnl_percent.isSome then ["pnl_percent"] else [])
    ++ (if u.status.isSome then ["status"] else [])
    ++ (if u.unrealized_pnl.isSome then ["unrealized_pnl"] else [])

/-- Effect of a successful `UPDATE trades SET ... WHERE id = ?` on one row:
each present key overwrites its column, and `update_trade` additionally sets
`closed_at = CURRENT_TIMESTAMP` when the dict sets `status` to `'CLOSED'`
(src/db/database.py lines 259-260). -/
def applyUpdates (now : ℚ) (u : TradeUpdates) (r : TradeRow) : TradeRow :=
  { r with
    exit_price := u.exit_price.or r.exit_price
    pnl := u.pnl.or r.pnl
    pnl_percent := u.pnl_percent.or r.pnl_percent
    status := u.status.getD r.status
    closed_at := if u.status == some "CLOSED" then some now else r.closed_at }

/-- Embeds `Database.update_trade` (src/db/database.py lines 242-266).  The
statement is built from the dict's keys; if any key is not a column of
`trades`, sqlite raises `OperationalError` before any row changes
(`.error`).  Otherwise the row with the given id is updated. -/
def update_trade (db : List TradeRow) (now : ℚ) (trade_id : ℕ)
    (u : TradeUpdates) : Except String (List TradeRow) :=
  if u.keys.all (fun k => tradesColumns.contains k) then
    .ok (db.map (fun r => if r.id == trade_id then applyUpdates now u r else r))
  else
    .error "no such column"

/-- Comparison for `ORDER BY opened_at DESC` as used by `get_open_trades`. -/
def openedDesc (a b : TradeRow) : Prop := b.opened_at ≤ a.opened_at

instance : DecidableRel openedDesc := fun a b =>
  inferInstanceAs (Decidable (b.opened_at ≤ a.opened_at))

/-- Embeds `Database.get_open_trades` (src/db/database.py lines 322-347):
rows with `status = 'OPEN'`, optionally filtered by symbol, ordered by
`opened_at` descending. -/
def get_open_trades (db : List TradeRow) (symbol : Option String) : List TradeRow :=
  List.insertionSort openedDesc
    (db.filter (fun r =>
      r.status == "OPEN" && (match symbol with
        | none => true
        | some s => r.symbol == s)))

/-! ## Trade lifecycle (src/main.py) -/

/-- An exchange position as returned by `DataCollector.fetch_open_positions`;
`run_monitor` reads `size` and `unrealized_pnl`. -/
structure Position where
  size : ℚ := 0
  unrealized_pnl : ℚ := 0
deriving DecidableEq, Repr

/-- The Market Data Provider as seen by one monitoring cycle:
`positions s` is `collector.fetch_open_positions(s)` and `ticker_price s`
is `collector.fetch_ticker(s).get('price', 0)`. -/
structure Venue where
  positions : String → List Position
  ticker_price : String → ℚ

/-- The update dict built by the explicit CLOSE branch of `run_analysis`
(src/main.py lines 228-242).  `pnl = (exit_price - entry_price) * quantity`
with no dependence on the trade's side; the `pnl_percent` division is
unguarded, so the computation raises `ZeroDivisionError` (`none`) when
`entry_price * quantity = 0` (the numerator uses `.get('quantity', 0)` and
the denominator `.get('quantity', 1)`, but the key is always present in a
row dict, so both are `quantity`). -/
def run_analysis_close_update (trade : TradeRow) (exit_price : ℚ) :
    Option TradeUpdates :=
  let pnl := (exit_price - trade.entry_price) * trade.quantity
  if trade.entry_price * trade.quantity == 0 then
    none
  else
    some { exit_price := some exit_price, pnl := some pnl,
           pnl_percent := some (pnl / (trade.entry_price * trade.quantity) * 100),
           status := some "CLOSED" }

/-- The update dict built by the implicit-close branch of `run_monitor`
(src/main.py lines 304-322): side-dependent PnL, and the `pnl_percent`
division guarded by `if (entry_price * quantity) > 0 else 0`. -/
def run_monitor_close_update (trade : TradeRow) (exit_price : ℚ) : TradeUpdates :=
  let pnl :=
    if trade.side == "BUY" then (exit_price - trade.entry_price) * trade.quantity
    else (trade.entry_price - exit_price) * trade.quantity
  let denom := trade.entry_price * trade.quantity
  { exit_price := some exit_price, pnl := some pnl,
    pnl_percent := some (if denom > 0 then pnl / denom * 100 else 0),
    status := some "CLOSED" }

/-- One iteration of the `for trade in open_trades` loop of `run_monitor`
(src/main.py lines 277-327), acting on the current database state.  The body
runs under a per-trade `try/except`, so a failing `update_trade` (or any
other exception) leaves the database unchanged for that trade.  When a
position with nonzero size exists, the loop updates `unrealized_pnl` from
the first such position and breaks; otherwise it closes the trade at the
ticker price. -/
def monitor_trade_step (venue : Venue) (now : ℚ) (db : List TradeRow)
    (trade : TradeRow) : List TradeRow :=
  let exchange_positions := venue.positions trade.symbol
  match exchange_positions.find? (fun p => |p.size| > 0) with
  | some pos =>
    match update_trade db now trade.id { unrealized_pnl := some pos.unrealized_pnl } with
    | .ok db2 => db2
    | .error _ => db
  | none =>
    let exit_price := venue.ticker_price trade.symbol
    match update_trade db now trade.id (run_monitor_close_update trade exit_price) with
    | .ok db2 => db2
    | .error _ => db

/-- Embeds `run_monitor` (src/main.py lines 269-327, the per-trade loop):
the open trades are snapshotted once, then each is processed in turn against
the evolving database state. -/
def run_monitor (venue : Venue) (now : ℚ) (db : List TradeRow) : List TradeRow :=
  List.foldl (fun acc t => monitor_trade_step venue now acc t) db
    (get_open_trades db none)

/-- Result of `TradeExecutor.close_position` as read by `run_analysis`:
`success` and `close_result.get('price', 0)`. -/
structure CloseResult where
  success : Bool := true
  price : ℚ := 0
deriving DecidableEq, Repr

/-- Embeds the CLOSE branch of `run_analysis` (src/main.py lines 219-249):
if a current position exists and the gateway close succeeded, the first
trade of `get_open_trades(symbol)` is updated with the explicit-close dict.
A `ZeroDivisionError` in the PnL-percent computation, or a failing
`update_trade`, propagates to the cycle-level handler and leaves the
database unchanged. -/
def run_analysis_close (db : List TradeRow) (now : ℚ) (symbol : String)
    (current_position : Option Position) (close_result : CloseResult) :
    List TradeRow :=
  match current_position with
  | none => db
  | some _ =>
    if close_result.success then
      match get_open_trades db (some symbol) with
      | [] => db
      | trade :: _ =>
        match run_analysis_close_update trade close_result.price with
        | none => db
        | some u =>
          match update_trade db now trade.id u with
          | .ok db2 => db2
          | .error _ => db
    else db

/-! ## Network-call retry model (src/data/collector.py, src/trading/executor.py) -/

/-- Outcome of one raw exchange-API call, classified by the `ccxt` exception
hierarchy (`InsufficientFunds` and `InvalidOrder` are subclasses of
`ExchangeError`; `NetworkError` is disjoint from it). -/
inductive CallOutcome where
  | ok
  | networkError
  | insufficientFunds
  | invalidOrder
  | otherExchangeError
  | otherError
deriving DecidableEq, Repr

/-- Is the outcome caught by `except ccxt.ExchangeError`? -/
def CallOutcome.isExchangeError : CallOutcome → Bool
  | .insufficientFunds => true
  | .invalidOrder => true
  | .otherExchangeError => true
  | _ => false

/-- Behaviour of the exchange across successive attempts of one logical
call: `beh n` is the outcome of attempt number `n` (0-based). -/
def Behavior := ℕ → CallOutcome

/-- How a collector fetch ends. -/
inductive FetchResult where
  | success
  | raisedNetwork
  | raisedExchange
  | raisedOther
deriving DecidableEq, Repr

/-- The `for attempt in range(max_retries)` retry loop shared by
`DataCollector.fetch_candles` / `fetch_ticker` / `fetch_balance` /
`fetch_open_positions` (e.g. src/data/collector.py lines 96-137):
on `ccxt.NetworkError` sleep `retry_delay * 2 ** attempt` and retry while
`attempt < max_retries - 1`, re-raising on the last attempt; any
`ccxt.ExchangeError` or other exception is re-raised immediately.  Returns
(result, number of attempts made, list of backoff delays slept).  `fuel`
is `max_retries - attempt` and makes the recursion structural. -/
def fetch_attempts (beh : Behavior) (max_retries : ℕ) (retry_delay : ℚ)
    (attempt : ℕ) (slept : List ℚ) : ℕ → FetchResult × ℕ × List ℚ
  | 0 => (.raisedOther, attempt, slept)
  | fuel + 1 =>
    match beh attempt with
    | .ok => (.success, attempt + 1, slept)
    | .networkError =>
      if attempt < max_retries - 1 then
        fetch_attempts beh max_retries retry_delay (attempt + 1)
          (slept ++ [retry_delay * 2 ^ attempt]) fuel
      else
        (.raisedNetwork, attempt + 1, slept)
    | o =>
      if o.isExchangeError then (.raisedExchange, attempt + 1, slept)
      else (.raisedOther, attempt + 1, slept)

/-- Embeds `DataCollector.fetch_candles` (src/data/collector.py lines
81-137) with its source constants `max_retries = 3`, `retry_delay = 1`. -/
def fetch_candles (beh : Behavior) : FetchResult × ℕ × List ℚ :=
  fetch_attempts beh 3 1 0 [] 3

/-- The typed result dict of `TradeExecutor.place_market_order`. -/
structure OrderResult where
  success : Bool
  error : Option String := none
deriving DecidableEq, Repr

/-- Embeds `TradeExecutor.place_market_order` (src/trading/executor.py lines
69-157): a single `create_market_order` call in a `try` block whose handlers
map each exception class to a typed failure dict.  There is no retry loop;
the second component is the number of exchange calls made (always 1). -/
def place_market_order (beh : Behavior) : OrderResult × ℕ :=
  match beh 0 with
  | .ok => ({ success := true }, 1)
  | .insufficientFunds => ({ success := false, error := some "Insufficient funds" }, 1)
  | .invalidOrder => ({ success := false, error := some "Invalid order" }, 1)
  | .networkError => ({ success := false, error := some "Network error" }, 1)
  | .otherExchangeError => ({ success := false, error := some "Unknown error" }, 1)
  | .otherError => ({ success := false, error := some "Unknown error" }, 1)

/-! ## Concrete instances used by the claim theorems -/

/-- An open SELL trade: entry 100, quantity 2. -/
def sellTrade : TradeRow :=
  { id := 1, symbol := "X", side := "SELL", quantity := 2, entry_price := 100 }

/-- An open BUY trade whose stored entry price is 0 (reachable: `save_trade`
stores `trade_result.get('price', current_price)` and the executor reports
`order.get('average') or order.get('price', 0)`). -/
def zeroEntryTrade : TradeRow :=
  { id := 1, symbol := "X", side := "BUY", quantity := 2, entry_price := 0 }

/-- Scenario F trade: open BUY, entry 100, quantity 2. -/
def tradeF : TradeRow :=
  { id := 1, symbol := "X", side := "BUY", quantity := 2, entry_price := 100 }

/-- A venue reporting no open position for any symbol, ticker price 110. -/
def venueGone : Venue :=
  { positions := fun _ => [], ticker_price := fun _ => 110 }

/-- A venue still holding a position of size 1 with unrealized PnL 5. -/
def venueHeld : Venue :=
  { positions := fun _ => [{ size := 1, unrealized_pnl := 5 }],
    ticker_price := fun _ => 110 }

/-- A BUY signal whose stop_loss key is present with value 0. -/
def sigStopZero : Signal :=
  { action := some "BUY", entry_price := some 100, stop_loss := some 0,
    take_profit := some 105, position_size_pct := some 2 }

/-- Scenario A signal: entry 100, stop 98, position_size_pct 2. -/
def sigScenA : Signal :=
  { action := some "BUY", entry_price := some 100, stop_loss := some 98,
    take_profit := some 105, position_size_pct := some 2 }

/-- An already-CLOSED trade row with realized PnL 20. -/
def closedRow : TradeRow :=
  { id := 1, symbol := "X", side := "BUY", quantity := 2, entry_price := 100,
    status := "CLOSED", pnl := some 20 }

/-- A second, open, trade row for the same symbol. -/
def openRow : TradeRow :=
  { id := 2, symbol := "X", side := "BUY", quantity := 1, entry_price := 50,
    opened_at := 1 }

/-- Exchange behaviour: network error on the first attempt, then success. -/
def behNetThenOk : Behavior := fun n => if n = 0 then .networkError else .ok

/-- A CLOSE signal with confidence 80 (above the default threshold 70). -/
def sigCloseHi : Signal := { action := some "CLOSE", confidence := some 80 }

/-- A closed trade from today with realized PnL -600. -/
def lossTrade : TradeRec := { status := some "CLOSED", pnl := some (-600) }

/-! ## Theorems -/

/-- C1: the spec claims the explicit CLOSE action records
`pnl = (exit - entry) * quantity` for BUY and `(entry - exit) * quantity`
for SELL.  The code (src/main.py line 234) uses `(exit - entry) * quantity`
for every side.  Evaluated at the failing input (an open SELL trade with
entry 100, quantity 2, close fill price 90): the explicit path records
`pnl = -20`, while the claimed side-dependent formula — which the program's
own monitor path implements — gives `+20`. -/
theorem explicit_close_ignores_side :
    run_analysis_close_update sellTrade 90
      = some { exit_price := some 90, pnl := some (-20),
               pnl_percent := some (-10), status := some "CLOSED" }
    ∧ (run_monitor_close_update sellTrade 90).pnl
        = some ((sellTrade.entry_price - 90) * sellTrade.quantity)
    ∧ (sellTrade.entry_price - 90) * sellTrade.quantity = 20
    ∧ ¬ ((-20 : ℚ) = 20) := by
  refine ⟨?_, ?_, by norm_num [sellTrade], by norm_num⟩
  · simp [run_analysis_close_update, sellTrade]
    norm_num
  · simp [run_monitor_close_update, sellTrade]

/-- C2 counterexample: a CLOSE signal with confidence 80 (above the default
threshold 70) is rejected by rule 4 when today's realized PnL is -600
against a 10000 balance with max_daily_drawdown 0.05 (limit -500) — so the
claim that a sufficiently-confident CLOSE is accepted irrespective of the
daily PnL state is false: rule 4 is not gated on BUY/SELL. -/
theorem validate_close_drawdown_counterexample :
    sigCloseHi.action = some "CLOSE"
    ∧ ({} : RiskConfig).min_confidence ≤ sigCloseHi.confidence.getD 0
    ∧ validate_signal {} 0 sigCloseHi 10000 [] [lossTrade] none
        = (false, "Daily drawdown limit reached") := by
  refine ⟨rfl, by norm_num [sigCloseHi], ?_⟩
  simp [validate_signal, sigCloseHi, lossTrade, calculate_daily_pnl,
    is_in_cooldown, isBuySell]
  norm_num

/-- C2 amended: a CLOSE signal whose confidence meets min_confidence bypasses
rules 3, 5, 6 and 7, but remains subject to rule 4: the result is Accept iff
the daily PnL is not below -(portfolio_balance × max_daily_drawdown),
irrespective of the open-trade count, the cooldown state and the price/size
fields. -/
theorem validate_close_gated_only_by_drawdown (cfg : RiskConfig) (now : ℚ)
    (signal : Signal) (portfolio_balance : ℚ)
    (open_trades trades_today : List TradeRec) (last_trade : Option TradeRec)
    (hact : signal.action = some "CLOSE")
    (hconf : cfg.min_confidence ≤ signal.confidence.getD 0) :
    validate_signal cfg now signal portfolio_balance open_trades trades_today last_trade
      = if calculate_daily_pnl trades_today open_trades
            < -(portfolio_balance * cfg.max_daily_drawdown)
        then (false, "Daily drawdown limit reached")
        else (true, "Signal validated successfully") := by
  have h1 : ¬ (signal.confidence.getD 0 < cfg.min_confidence) := not_lt.mpr hconf
  simp [validate_signal, hact, isBuySell, h1]

/-- C2 witness: with no trades today, the same CLOSE signal is accepted. -/
theorem validate_close_gated_witness :
    validate_signal {} 0 sigCloseHi 10000 [] [] none
      = (true, "Signal validated successfully") := by
  rw [validate_close_gated_only_by_drawdown {} 0 sigCloseHi 10000 [] [] none rfl
    (by norm_num [sigCloseHi])]
  norm_num [calculate_daily_pnl]

/-- C3: the monitor's unrealized-PnL update targets a column that the
`trades` schema does not define: `"unrealized_pnl"` is not in
`tradesColumns`, so `update_trade` raises (`OperationalError: no such
column`), and a monitoring step over an open trade whose venue position
still exists leaves the database completely unchanged — the venue-reported
figure is never stored. -/
theorem monitor_unrealized_update_fails :
    ¬ ("unrealized_pnl" ∈ tradesColumns)
    ∧ update_trade [tradeF] 0 1 { unrealized_pnl := some 5 }
        = .error "no such column"
    ∧ monitor_trade_step venueHeld 0 [tradeF] tradeF = [tradeF]
    ∧ run_monitor venueHeld 0 [tradeF] = [tradeF] := by
  refine ⟨by decide, rfl, rfl, rfl⟩

/-- C4 counterexample: an explicit CLOSE of an open trade whose stored entry
price is 0 (so entry_price × quantity = 0) hits an unguarded division:
`run_analysis_close_update` raises `ZeroDivisionError` (modelled by `none`),
the exception propagates to the cycle-level handler, and no value is
recorded — the database is unchanged.  This refutes the claim that every
close path is guarded against division by zero. -/
theorem explicit_close_division_counterexample :
    zeroEntryTrade.entry_price * zeroEntryTrade.quantity = 0
    ∧ run_analysis_close_update zeroEntryTrade 110 = none
    ∧ run_analysis_close [zeroEntryTrade] 0 "X" (some { size := 1 })
        { success := true, price := 110 } = [zeroEntryTrade] := by
  refine ⟨by norm_num [zeroEntryTrade], ?_, ?_⟩
  · simp [run_analysis_close_update, zeroEntryTrade]
  · simp [run_analysis_close, get_open_trades, run_analysis_close_update, zeroEntryTrade,
      List.insertionSort, List.orderedInsert]

/-- C4 amended: only the monitor-detected implicit close is guarded against
division by zero (recording pnl_percent = 0 whenever entry_price × quantity
is not positive); the explicit CLOSE path divides unguarded: it raises
exactly when entry_price × quantity = 0, and otherwise records
pnl_percent = pnl / (entry_price × quantity) × 100. -/
theorem close_division_guards (trade : TradeRow) (exit_price : ℚ) :
    ((run_analysis_close_update trade exit_price).isNone
        ↔ trade.entry_price * trade.quantity = 0)
    ∧ (trade.entry_price * trade.quantity ≤ 0 →
        (run_monitor_close_update trade exit_price).pnl_percent = some 0)
    ∧ (trade.entry_price * trade.quantity ≠ 0 →
        run_analysis_close_update trade exit_price
          = some { exit_price := some exit_price,
                   pnl := some ((exit_price - trade.entry_price) * trade.quantity),
                   pnl_percent := some ((exit_price - trade.entry_price) * trade.quantity
                      / (trade.entry_price * trade.quantity) * 100),
                   status := some "CLOSED" }) := by
  refine ⟨?_, ?_, ?_⟩
  · unfold run_analysis_close_update
    by_cases h : trade.entry_price * trade.quantity = 0
    · simp [h]
    · simp [h]
  · intro h
    have h2 : ¬ (trade.entry_price * trade.quantity > 0) := not_lt.mpr h
    simp [run_monitor_close_update, h2]
  · intro h
    simp [run_analysis_close_update, h]

/-- C4 witness: the monitor close records pnl_percent 0 for a zero-notional
trade, and the explicit close of a normal BUY trade (entry 100, quantity 2,
exit 110) records pnl 20 and pnl_percent 10. -/
theorem close_division_guards_witness :
    (run_monitor_close_update zeroEntryTrade 110).pnl_percent = some 0
    ∧ run_analysis_close_update tradeF 110
        = some { exit_price := some 110, pnl := some 20,
                 pnl_percent := some 10, status := some "CLOSED" } := by
  constructor
  · exact (close_division_guards zeroEntryTrade 110).2.1 (by norm_num [zeroEntryTrade])
  · have h := (close_division_guards tradeF 110).2.2 (by norm_num [tradeF])
    rw [h]; norm_num [tradeF]

/-- C5 counterexample: under an exchange behaviour that raises a transient
network error on every attempt, a market-data fetch makes 3 attempts, but an
order placement makes exactly 1 — order placement does not retry transient
network errors, refuting the claim that it retries up to 3 attempts like the
market-data fetches. -/
theorem order_retry_counterexample :
    (fetch_candles (fun _ => CallOutcome.networkError)).2.1 = 3
    ∧ (place_market_order (fun _ => CallOutcome.networkError)).2 = 1
    ∧ (1 : ℕ) ≠ 3 := by
  refine ⟨rfl, rfl, by norm_num⟩

/-- C5 amended: market-data fetches retry transient network errors up to 3
attempts with exponential backoff (delays 1 then 2) and surface exchange
errors immediately without retrying; order placement makes exactly one
exchange call and maps each outcome — success, insufficient funds, invalid
order, network error — to its typed result dict immediately, never
retrying. -/
theorem retry_semantics_amended (beh : Behavior) :
    (place_market_order beh).2 = 1
    ∧ ((place_market_order beh).1.success = true ↔ beh 0 = .ok)
    ∧ (beh 0 = .insufficientFunds →
        (place_market_order beh).1
          = { success := false, error := some "Insufficient funds" })
    ∧ (beh 0 = .invalidOrder →
        (place_market_order beh).1
          = { success := false, error := some "Invalid order" })
    ∧ (beh 0 = .networkError →
        (place_market_order beh).1
          = { success := false, error := some "Network error" })
    ∧ ((beh 0).isExchangeError = true → fetch_candles beh = (.raisedExchange, 1, []))
    ∧ (beh 0 = .networkError → beh 1 = .ok → fetch_candles beh = (.success, 2, [1]))
    ∧ (beh 0 = .networkError → beh 1 = .networkError → beh 2 = .ok →
        fetch_candles beh = (.success, 3, [1, 2]))
    ∧ (beh 0 = .networkError → beh 1 = .networkError → beh 2 = .networkError →
        fetch_candles beh = (.raisedNetwork, 3, [1, 2])) := by
  refine ⟨?_, ?_, ?_, ?_, ?_, ?_, ?_, ?_, ?_⟩
  · cases h : beh 0 <;> simp [place_market_order, h]
  · cases h : beh 0 <;> simp [place_market_order, h]
  · intro h; simp [place_market_order, h]
  · intro h; simp [place_market_order, h]
  · intro h; simp [place_market_order, h]
  · intro h
    cases h0 : beh 0 <;> rw [h0] at h <;>
      simp [CallOutcome.isExchangeError] at h <;>
      norm_num [fetch_candles, fetch_attempts, h0, CallOutcome.isExchangeError]
  · intro h0 h1
    norm_num [fetch_candles, fetch_attempts, h0, h1]
  · intro h0 h1 h2
    norm_num [fetch_candles, fetch_attempts, h0, h1, h2]
  · intro h0 h1 h2
    norm_num [fetch_candles, fetch_attempts, h0, h1, h2]

/-- C5 witness: a fetch that hits one network error then succeeds makes 2
attempts with one backoff sleep of 1, while order placement under the same
behaviour still makes exactly 1 call. -/
theorem retry_semantics_amended_witness :
    fetch_candles behNetThenOk = (.success, 2, [1])
    ∧ (place_market_order behNetThenOk).2 = 1 := by
  constructor
  · exact (retry_semantics_amended behNetThenOk).2.2.2.2.2.2.1 rfl rfl
  · exact (retry_semantics_amended behNetThenOk).1

/-- C6 counterexample: a BUY signal with stop_loss key present but equal to 0
(and ≠ entry price 100) returns position size 0 — the Python truthiness test
`if not stop_loss` treats a zero stop-loss as missing — whereas the claimed
min-formula evaluates to 2. -/
theorem position_size_stop_zero_counterexample :
    sigStopZero.stop_loss = some 0
    ∧ sigStopZero.stop_loss ≠ some (sigStopZero.entry_price.getD 100)
    ∧ calculate_position_size {} sigStopZero 10000 100 = some 0
    ∧ min (10000 * ({} : RiskConfig).max_risk_per_trade
            / |sigStopZero.entry_price.getD 100 - 0|)
          (10000 * (sigStopZero.position_size_pct.getD 2 / 100)
            / sigStopZero.entry_price.getD 100) = 2
    ∧ ¬ ((0 : ℚ) = 2) := by
  refine ⟨rfl, by simp [sigStopZero], ?_, ?_, by norm_num⟩
  · simp [calculate_position_size, sigStopZero, truthyQ]
  · norm_num [sigStopZero, RiskConfig.max_risk_per_trade]

/-- C6 amended: for every signal whose stop_loss is present, nonzero, and
different from the effective entry price (signal entry or current price),
with that entry price nonzero, calculate_position_size returns
min(balance × max_risk_per_trade / |entry − stop|,
    balance × (position_size_pct/100) / entry) — position_size_pct
defaulting to 2 when absent — and consequently any returned quantity
satisfies both P2 ceilings. -/
theorem position_size_amended (cfg : RiskConfig) (signal : Signal)
    (portfolio_balance current_price : ℚ) (s : ℚ)
    (hs : signal.stop_loss = some s) (hs0 : s ≠ 0)
    (hne : s ≠ signal.entry_price.getD current_price)
    (he0 : signal.entry_price.getD current_price ≠ 0) :
    calculate_position_size cfg signal portfolio_balance current_price
      = some (min
          (portfolio_balance * cfg.max_risk_per_trade
            / |signal.entry_price.getD current_price - s|)
          (portfolio_balance * (signal.position_size_pct.getD 2 / 100)
            / signal.entry_price.getD current_price))
    ∧ ∀ q, calculate_position_size cfg signal portfolio_balance current_price = some q →
        q ≤ portfolio_balance * cfg.max_risk_per_trade
              / |signal.entry_price.getD current_price - s|
        ∧ q ≤ portfolio_balance * (signal.position_size_pct.getD 2 / 100)
              / signal.entry_price.getD current_price := by
  have htr2 : truthyQ (some s) = true := by simp [truthyQ, hs0]
  have hbeq : (s == signal.entry_price.getD current_price) = false := by simp [hne]
  have hbeq0 : (signal.entry_price.getD current_price == 0) = false := by simp [he0]
  have h1 : calculate_position_size cfg signal portfolio_balance current_price
      = some (min
          (portfolio_balance * cfg.max_risk_per_trade
            / |signal.entry_price.getD current_price - s|)
          (portfolio_balance * (signal.position_size_pct.getD 2 / 100)
            / signal.entry_price.getD current_price)) := by
    simp [calculate_position_size, hs, htr2, hbeq, hbeq0]
  refine ⟨h1, ?_⟩
  intro q hq
  rw [h1] at hq
  simp only [Option.some.injEq] at hq
  subst hq
  exact ⟨min_le_left _ _, min_le_right _ _⟩

/-- C6 witness (Scenario A): balance 10000, max_risk_per_trade 0.02, entry
100, stop 98, position_size_pct 2 → size 2. -/
theorem position_size_amended_witness :
    calculate_position_size {} sigScenA 10000 100 = some 2 := by
  have h := (position_size_amended {} sigScenA 10000 100 98 rfl (by norm_num)
    (by norm_num [sigScenA]) (by norm_num [sigScenA])).1
  rw [h]; norm_num [sigScenA, RiskConfig.max_risk_per_trade, min_def]

/-- C7 counterexample: a trade opened 1 hour ago (elapsed 1 < cooldown 2)
whose opened_at is a UTC-'Z'-suffixed string parses to a timezone-aware
datetime; subtracting it from the naive `datetime.now()` raises `TypeError`,
which the handler converts to False — so `is_in_cooldown` returns False
where the claimed iff requires True. -/
theorem cooldown_aware_counterexample :
    ((1 : ℚ) - 0 < 2)
    ∧ is_in_cooldown 2 1 (some { opened_at := some (.aware 0) }) = false :=
  ⟨by norm_num, rfl⟩

/-- C7 amended: for a naive opened_at timestamp, is_in_cooldown returns True
iff now − opened_at < cooldown_hours; for a UTC-'Z'-suffixed (aware)
timestamp the naive-minus-aware comparison raises and is caught, yielding
False (fail-open); an unparsable timestamp, a missing opened_at, and a
missing prior trade all yield False. -/
theorem cooldown_amended (cooldown_hours now : ℚ) (t : TradeRec) :
    (∀ u, t.opened_at = some (.naive u) →
      is_in_cooldown cooldown_hours now (some t)
        = decide (now - u < cooldown_hours))
    ∧ (∀ v, t.opened_at = some (.aware v) →
        is_in_cooldown cooldown_hours now (some t) = false)
    ∧ (t.opened_at = some .invalid →
        is_in_cooldown cooldown_hours now (some t) = false)
    ∧ (t.opened_at = none → is_in_cooldown cooldown_hours now (some t) = false)
    ∧ is_in_cooldown cooldown_hours now none = false := by
  refine ⟨?_, ?_, ?_, ?_, rfl⟩
  · intro u hu; simp [is_in_cooldown, hu, Timestamp.sub_from_naive_now]
  · intro v hv; simp [is_in_cooldown, hv, Timestamp.sub_from_naive_now]
  · intro h; simp [is_in_cooldown, h, Timestamp.sub_from_naive_now]
  · intro h; simp [is_in_cooldown, h]

/-- C7 witness (Scenario B): a naive-timestamped trade opened 1 hour ago with
cooldown_hours 2 is reported in cooldown. -/
theorem cooldown_amended_witness :
    is_in_cooldown 2 1 (some { opened_at := some (.naive 0) }) = true := by
  rw [(cooldown_amended 2 1 { opened_at := some (.naive 0) }).1 0 rfl]
  norm_num

/-- Helper: a row whose id differs from the updated id is untouched by a
successful `update_trade`. -/
theorem mem_of_update_trade_ne (db db2 : List TradeRow) (now : ℚ) (tid : ℕ)
    (u : TradeUpdates) (r : TradeRow)
    (h : update_trade db now tid u = .ok db2) (hr : r ∈ db) (hid : r.id ≠ tid) :
    r ∈ db2 := by
  unfold update_trade at h
  split at h
  · injection h with h2
    subst h2
    have hmem := List.mem_map_of_mem
      (fun x => if x.id == tid then applyUpdates now u x else x) hr
    simpa [beq_eq_false_iff_ne.mpr hid] using hmem
  · simp at h

/-- Helper: a row whose id differs from the processed trade's id passes
through one monitor loop iteration untouched. -/
theorem mem_monitor_step_of_ne (venue : Venue) (now : ℚ) (acc : List TradeRow)
    (u r : TradeRow) (hr : r ∈ acc) (hid : r.id ≠ u.id) :
    r ∈ monitor_trade_step venue now acc u := by
  simp only [monitor_trade_step]
  split
  · split
    · rename_i db2 heq
      exact mem_of_update_trade_ne acc db2 now u.id _ r heq hr hid
    · exact hr
  · split
    · rename_i db2 heq
      exact mem_of_update_trade_ne acc db2 now u.id _ r heq hr hid
    · exact hr

/-- Helper: a row whose id differs from every trade of the snapshot list
passes through the monitor fold untouched. -/
theorem mem_monitor_fold_of_ne (venue : Venue) (now : ℚ) (l : List TradeRow)
    (acc : List TradeRow) (r : TradeRow) (hr : r ∈ acc)
    (hne : ∀ u ∈ l, r.id ≠ u.id) :
    r ∈ List.foldl (fun a u => monitor_trade_step venue now a u) acc l := by
  induction l generalizing acc with
  | nil => simpa using hr
  | cons u l ih =>
    simp only [List.foldl_cons]
    exact ih _ (mem_monitor_step_of_ne venue now acc u r hr (hne u (by simp)))
      (fun v hv => hne v (by simp [hv]))

/-- Helper: `get_open_trades` only returns rows of the database whose status
is OPEN. -/
theorem mem_get_open_trades (db : List TradeRow) (s : Option String) (t : TradeRow)
    (h : t ∈ get_open_trades db s) : t ∈ db ∧ t.status = "OPEN" := by
  unfold get_open_trades at h
  rw [List.mem_insertionSort, List.mem_filter] at h
  refine ⟨h.1, ?_⟩
  have h2 := h.2
  cases s with
  | none => simpa using h2
  | some s0 =>
    simp at h2
    exact h2.1

/-- Helper: filtering and sorting preserve distinctness of the primary key. -/
theorem get_open_trades_id_nodup (db : List TradeRow) (s : Option String)
    (h : (db.map TradeRow.id).Nodup) :
    ((get_open_trades db s).map TradeRow.id).Nodup := by
  unfold get_open_trades
  have hperm := (List.perm_insertionSort openedDesc
    (db.filter (fun r => r.status == "OPEN" && (match s with
      | none => true
      | some s0 => r.symbol == s0)))).map TradeRow.id
  rw [hperm.nodup_iff]
  exact List.Nodup.sublist
    (List.Sublist.map TradeRow.id (List.filter_sublist db)) h

/-- Helper: the monitor iteration for a trade whose symbol has no position of
nonzero size on the venue closes that trade: its row becomes the original row
with exit_price the ticker price, side-dependent pnl, guarded pnl_percent,
status CLOSED, and closed_at the update time. -/
theorem monitor_step_closes (venue : Venue) (now : ℚ) (db : List TradeRow)
    (t : TradeRow) (ht : t ∈ db)
    (hnopos : ∀ p ∈ venue.positions t.symbol, ¬ (|p.size| > 0)) :
    ({ t with
       exit_price := some (venue.ticker_price t.symbol),
       pnl := some (if t.side == "BUY"
         then (venue.ticker_price t.symbol - t.entry_price) * t.quantity
         else (t.entry_price - venue.ticker_price t.symbol) * t.quantity),
       pnl_percent := some (if t.entry_price * t.quantity > 0
         then (if t.side == "BUY"
           then (venue.ticker_price t.symbol - t.entry_price) * t.quantity
           else (t.entry_price - venue.ticker_price t.symbol) * t.quantity)
           / (t.entry_price * t.quantity) * 100
         else 0),
       status := "CLOSED",
       closed_at := some now } : TradeRow) ∈ monitor_trade_step venue now db t := by
  simp only [monitor_trade_step]
  have hfind : (venue.positions t.symbol).find? (fun p => |p.size| > 0) = none := by
    rw [List.find?_eq_none]
    intro p hp
    simpa using hnopos p hp
  rw [hfind]
  have hkeys : (run_monitor_close_update t (venue.ticker_price t.symbol)).keys.all
      (fun k => tradesColumns.contains k) = true := by
    simp [run_monitor_close_update, TradeUpdates.keys, tradesColumns]
  rw [update_trade, if_pos hkeys]
  have hmem := List.mem_map_of_mem
    (fun x => if x.id == t.id
      then applyUpdates now (run_monitor_close_update t (venue.ticker_price t.symbol)) x
      else x) ht
  simpa [applyUpdates, run_monitor_close_update, Option.or] using hmem

/-- C8: on a monitoring cycle, every OPEN trade whose symbol has no position
of nonzero size on the venue is closed: the resulting database contains its
row with exit_price set to the latest ticker price, pnl computed by the
side-dependent formula, pnl_percent = pnl / (entry × quantity) × 100 (0 when
the notional is not positive), and status CLOSED.  Trade ids are distinct
(primary key). -/
theorem monitor_implicit_close (venue : Venue) (now : ℚ) (db : List TradeRow)
    (t : TradeRow) (hnodup : (db.map TradeRow.id).Nodup)
    (ht : t ∈ db) (hopen : t.status = "OPEN")
    (hnopos : ∀ p ∈ venue.positions t.symbol, ¬ (|p.size| > 0)) :
    ({ t with
       exit_price := some (venue.ticker_price t.symbol),
       pnl := some (if t.side == "BUY"
         then (venue.ticker_price t.symbol - t.entry_price) * t.quantity
         else (t.entry_price - venue.ticker_price t.symbol) * t.quantity),
       pnl_percent := some (if t.entry_price * t.quantity > 0
         then (if t.side == "BUY"
           then (venue.ticker_price t.symbol - t.entry_price) * t.quantity
           else (t.entry_price - venue.ticker_price t.symbol) * t.quantity)
           / (t.entry_price * t.quantity) * 100
         else 0),
       status := "CLOSED",
       closed_at := some now } : TradeRow) ∈ run_monitor venue now db := by
  have hsnap : t ∈ get_open_trades db none := by
    unfold get_open_trades
    rw [List.mem_insertionSort, List.mem_filter]
    exact ⟨ht, by simp [hopen]⟩
  obtain ⟨l1, l2, hsplit⟩ := List.append_of_mem hsnap
  have hnodupSnap := get_open_trades_id_nodup db none hnodup
  rw [hsplit] at hnodupSnap
  simp only [List.map_append, List.map_cons] at hnodupSnap
  rw [List.nodup_append] at hnodupSnap
  obtain ⟨hn1, hn2, hdisj⟩ := hnodupSnap
  have hnotl2 : t.id ∉ l2.map TradeRow.id := (List.nodup_cons.mp hn2).1
  have hnotl1 : t.id ∉ l1.map TradeRow.id := by
    intro hmem
    exact absurd (hdisj hmem) (by simp)
  have hne1 : ∀ u ∈ l1, t.id ≠ u.id := by
    intro u hu heq
    exact hnotl1 (heq ▸ List.mem_map_of_mem TradeRow.id hu)
  have hne2 : ∀ u ∈ l2, t.id ≠ u.id := by
    intro u hu heq
    exact hnotl2 (heq ▸ List.mem_map_of_mem TradeRow.id hu)
  unfold run_monitor
  rw [hsplit, List.foldl_append, List.foldl_cons]
  have ht1 : t ∈ List.foldl (fun a u => monitor_trade_step venue now a u) db l1 :=
    mem_monitor_fold_of_ne venue now l1 db t ht hne1
  apply mem_monitor_fold_of_ne venue now l2 _ _ ?_ ?_
  · exact monitor_step_closes venue now _ t ht1 hnopos
  · intro u hu
    simpa using hne2 u hu

/-- C8 witness (Scenario F): an OPEN BUY trade with entry 100 and quantity 2
whose symbol has no venue position is closed at ticker price 110 with pnl 20
and pnl_percent 10. -/
theorem monitor_implicit_close_witness :
    (∃ r ∈ run_monitor venueGone 5 [tradeF],
      r.exit_price = some 110 ∧ r.pnl = some 20 ∧ r.pnl_percent = some 10
        ∧ r.status = "CLOSED") := by
  refine ⟨_, monitor_implicit_close venueGone 5 [tradeF] tradeF (by simp)
    (by simp) rfl (by intro p hp; simp [venueGone] at hp), ?_, ?_, ?_, ?_⟩
  · rfl
  · show some (if tradeF.side == "BUY"
      then (venueGone.ticker_price tradeF.symbol - tradeF.entry_price) * tradeF.quantity
      else (tradeF.entry_price - venueGone.ticker_price tradeF.symbol) * tradeF.quantity)
      = some 20
    norm_num [tradeF, venueGone]
  · show some (if tradeF.entry_price * tradeF.quantity > 0
      then (if tradeF.side == "BUY"
        then (venueGone.ticker_price tradeF.symbol - tradeF.entry_price) * tradeF.quantity
        else (tradeF.entry_price - venueGone.ticker_price tradeF.symbol) * tradeF.quantity)
        / (tradeF.entry_price * tradeF.quantity) * 100
      else 0) = some 10
    norm_num [tradeF, venueGone]
  · rfl

/-- C9: trade status is monotonic.  With distinct trade ids, every trade row
that is already CLOSED survives a full monitoring cycle unchanged and
survives the explicit CLOSE path unchanged (so closing never double-applies
PnL), and every close path selects its candidates from `get_open_trades`,
which returns only rows with status OPEN — no path maps CLOSED back to
OPEN. -/
theorem trade_status_monotone (venue : Venue) (now : ℚ) (db : List TradeRow)
    (sym : String) (cp : Option Position) (res : CloseResult)
    (hnodup : (db.map TradeRow.id).Nodup) :
    (∀ t ∈ db, t.status = "CLOSED" → t ∈ run_monitor venue now db)
    ∧ (∀ t ∈ db, t.status = "CLOSED" → t ∈ run_analysis_close db now sym cp res)
    ∧ (∀ s, ∀ t ∈ get_open_trades db s, t.status = "OPEN") := by
  have hids : ∀ t ∈ db, t.status = "CLOSED" →
      ∀ s, ∀ u ∈ get_open_trades db s, t.id ≠ u.id := by
    intro t ht hclosed s u hu heq
    obtain ⟨humem, huopen⟩ := mem_get_open_trades db s u hu
    have : t = u := List.inj_on_of_nodup_map hnodup ht humem heq
    rw [this, huopen] at hclosed
    exact absurd hclosed (by simp)
  refine ⟨?_, ?_, ?_⟩
  · intro t ht hclosed
    exact mem_monitor_fold_of_ne venue now _ db t ht (hids t ht hclosed none)
  · intro t ht hclosed
    unfold run_analysis_close
    split
    · exact ht
    · split
      · split
        · exact ht
        · split
          · exact ht
          · split
            · rename_i trade tail heqg xo u hequ xe db2 hequp
              have htrade : trade ∈ get_open_trades db (some sym) := by
                rw [heqg]; simp
              exact mem_of_update_trade_ne db db2 now trade.id u t hequp ht
                (hids t ht hclosed (some sym) trade htrade)
            · exact ht
      · exact ht
  · intro s t htmem
    exact (mem_get_open_trades db s t htmem).2

/-- C9 witness: an already-CLOSED trade row is untouched both by a monitoring
cycle and by an explicit close of its symbol. -/
theorem trade_status_monotone_witness :
    closedRow ∈ run_monitor venueGone 0 [closedRow, openRow]
    ∧ closedRow ∈ run_analysis_close [closedRow, openRow] 0 "X" none
        { success := true, price := 110 } := by
  have h := trade_status_monotone venueGone 0 [closedRow, openRow] "X" none
    { success := true, price := 110 } (by simp [closedRow, openRow])
  exact ⟨h.1 closedRow (by simp) rfl, h.2.1 closedRow (by simp) rfl⟩

/-- C10: a signal lacking the confidence key is handled totally — the missing
field defaults to 0, so whenever min_confidence is positive the signal is
rejected by rule 1 (confidence threshold), not accepted and not an error. -/
theorem missing_confidence_rejected (cfg : RiskConfig) (now : ℚ) (signal : Signal)
    (portfolio_balance : ℚ) (open_trades trades_today : List TradeRec)
    (last_trade : Option TradeRec)
    (hconf : signal.confidence = none) (hmin : 0 < cfg.min_confidence) :
    validate_signal cfg now signal portfolio_balance open_trades trades_today last_trade
      = (false, "Confidence below threshold") := by
  simp [validate_signal, hconf, hmin]

/-- C10 witness: a BUY signal without a confidence field is rejected by
rule 1 under the default configuration (min_confidence 70). -/
theorem missing_confidence_rejected_witness :
    validate_signal {} 0 { action := some "BUY" } 10000 [] [] none
      = (false, "Confidence below threshold") :=
  missing_confidence_rejected {} 0 { action := some "BUY" } 10000 [] [] none rfl
    (by norm_num)

end Kriptunukas
